import Mathlib

/-!
Verification of the request-dispatch core of `api_framework.py`
(`APIClient`): rate limiting (`_rate_limit`), retry/backoff behaviour of
the mounted `HTTPAdapter(max_retries=Retry(total=max_retries,
backoff_factor=backoff_factor, status_forcelist=[429,500,502,503,504],
raise_on_status=False))`, and the caller-facing verbs `get/post/put/delete`.

Timing is embedded by passing the `time.time()` readings explicitly:
each `_rate_limit` call consumes two readings, the one taken on entry and
the one taken after the (possible) `time.sleep`.  Durations and instants
are rationals.  The urllib3 retry loop that `session.request` runs is part
of the behaviour of the program and is embedded from the urllib3 `Retry` class
(`is_retry`/`increment`/`is_exhausted`/`get_backoff_time`), specialised to
the configuration the source constructs.
-/

namespace APIFramework

/-- `status_forcelist=[429, 500, 502, 503, 504]` from `APIClient.__init__`. -/
def status_forcelist : List Nat := [429, 500, 502, 503, 504]

/-- Outcome of one transport attempt: an HTTP response (status, body) or a
transport-level failure (connection refused, timeout, ...).  The body is an
opaque payload, modelled as a natural number. -/
inductive Outcome where
  | resp (status : Nat) (body : Nat)
  | transportError
deriving DecidableEq, Repr

/-- Result of `session.request` as seen by the caller of `_request`: either an
HTTP response object (urllib3 returns the last response when status
retries are exhausted, because `raise_on_status=False`), or a raised
`MaxRetryError` when transport-level retries are exhausted. -/
inductive ReqResult where
  | response (status : Nat) (body : Nat)
  | maxRetryError
deriving DecidableEq, Repr

/-- urllib3 `Retry.is_retry` specialised to the constructed strategy: all
five verbs are in `allowed_methods`, so a response is retried exactly when
its status is in the forcelist; a transport-level error is always retried
(connect/read counters are unset and fall back to `total`). -/
def is_retry (o : Outcome) : Bool :=
  match o with
  | .resp status _ => status_forcelist.contains status
  | .transportError => true

/-- The urllib3 retry loop run by `session.request` for one `_request`
call.  `transport i` is the outcome of the i-th transport attempt
(0-indexed).  `retriesLeft` starts at `Retry(total=max_retries)`; each
retry decrements it and the loop stops when a further retry would drive it
below 0 (`is_exhausted`).  On exhaustion a retryable response is returned
as-is (`raise_on_status=False`) while a transport error surfaces as
`MaxRetryError`.  Returns (number of attempts made, result). -/
def retryLoop (transport : Nat → Outcome) (idx : Nat) :
    Nat → Nat × ReqResult
  | 0 =>
    match transport idx with
    | .resp status body => (1, .response status body)
    | .transportError => (1, .maxRetryError)
  | retriesLeft + 1 =>
    match transport idx with
    | .resp status body =>
      if is_retry (.resp status body) then
        let rest := retryLoop transport (idx + 1) retriesLeft
        (rest.1 + 1, rest.2)
      else
        (1, .response status body)
    | .transportError =>
        let rest := retryLoop transport (idx + 1) retriesLeft
        (rest.1 + 1, rest.2)

/-- `session.request` under the mounted adapter: run the retry loop with
the full budget `max_retries`. -/
def sessionRequest (max_retries : Nat) (transport : Nat → Outcome) :
    Nat × ReqResult :=
  retryLoop transport 0 max_retries

/-- urllib3 `Retry.DEFAULT_BACKOFF_MAX`. -/
def DEFAULT_BACKOFF_MAX : ℚ := 120

/-- urllib3 `Retry.get_backoff_time`, evaluated when `history` holds
`consecutive_errors_len` consecutive errors (no redirects occur here):
0 when at most one error has been seen, otherwise
`min(DEFAULT_BACKOFF_MAX, backoff_factor * 2^(consecutive_errors_len - 1))`.
This is the sleep inserted before the `consecutive_errors_len`-th retry. -/
def get_backoff_time (backoff_factor : ℚ) (consecutive_errors_len : Nat) : ℚ :=
  if consecutive_errors_len ≤ 1 then 0
  else min DEFAULT_BACKOFF_MAX (backoff_factor * 2 ^ (consecutive_errors_len - 1))

/-- The sleeps urllib3 inserts between the attempts of a run that makes
`numAttempts` attempts, all of whose non-final outcomes are errors: the
k-th inter-attempt delay (before retry number k, 1-indexed) is
`get_backoff_time backoff_factor k`. -/
def interAttemptDelays (backoff_factor : ℚ) (numAttempts : Nat) : List ℚ :=
  (List.range (numAttempts - 1)).map (fun i => get_backoff_time backoff_factor (i + 1))

/-- `self._last_call = 0` in `APIClient.__init__`. -/
def init_last_call : ℚ := 0

/-- The `time.sleep` duration `_rate_limit` requests, given the configured
rate, the current `self._last_call` and the `time.time()` reading `now1`
taken on entry: `min_interval - elapsed` when `elapsed < min_interval`,
otherwise no sleep. -/
def rate_limit_sleep (requests_per_second last_call now1 : ℚ) : ℚ :=
  let elapsed := now1 - last_call
  let min_interval := 1 / requests_per_second
  if elapsed < min_interval then min_interval - elapsed else 0

/-- `APIClient._rate_limit`, embedded with explicit clock readings:
`now1` is the `time.time()` on entry, `now2` the `time.time()` taken after
the possible sleep.  Returns (requested sleep duration, new `_last_call`);
the new `_last_call` is the post-sleep reading `now2`.  The method has no
error outcome: it is a total function. -/
def _rate_limit (requests_per_second last_call now1 now2 : ℚ) : ℚ × ℚ :=
  (rate_limit_sleep requests_per_second last_call now1, now2)

/-- Modelled from the spec (section 4.1 RateLimiter, refinement
comparison): on call, compute `elapsed = now - LastCallTimestamp`; if
`elapsed < minInterval` (with `minInterval = 1 / requests_per_second`),
suspend for `minInterval - elapsed`; then set `LastCallTimestamp` to a
fresh `now()` reading taken after any suspension and return, with no
error outcome. -/
def acquireSpec (requests_per_second LastCallTimestamp nowBefore nowAfter : ℚ) :
    ℚ × ℚ :=
  let minInterval := 1 / requests_per_second
  let elapsed := nowBefore - LastCallTimestamp
  if elapsed < minInterval then (minInterval - elapsed, nowAfter)
  else (0, nowAfter)

/-- Error surfaced by a verb call: `requests.HTTPError` raised by
`r.raise_for_status()` (status in [400, 600)), or the urllib3
`MaxRetryError` escaping `session.request`. -/
inductive DispatchError where
  | httpError (status : Nat)
  | maxRetryError
deriving DecidableEq, Repr

/-- `requests.Response.raise_for_status`: raises `HTTPError` exactly when
`400 ≤ status < 600`; otherwise the response passes through. -/
def raise_for_status : ReqResult → Except DispatchError (Nat × Nat)
  | .response status body =>
    if 400 ≤ status ∧ status < 600 then .error (.httpError status)
    else .ok (status, body)
  | .maxRetryError => .error .maxRetryError

/-- `APIClient.get`: `_request` (one `_rate_limit` then `session.request`),
`raise_for_status`, then `return r.json()` — the parsed body. -/
def get (max_retries : Nat) (transport : Nat → Outcome) :
    Except DispatchError Nat :=
  (raise_for_status (sessionRequest max_retries transport).2).map Prod.snd

/-- `APIClient.post`: same dispatch pipeline as `get`, returning the
parsed body `r.json()`.  (POST is in `allowed_methods`, so the retry
behaviour is identical.) -/
def post (max_retries : Nat) (transport : Nat → Outcome) :
    Except DispatchError Nat :=
  (raise_for_status (sessionRequest max_retries transport).2).map Prod.snd

/-- `APIClient.put`: same dispatch pipeline as `get`, returning the parsed
body `r.json()`. -/
def put (max_retries : Nat) (transport : Nat → Outcome) :
    Except DispatchError Nat :=
  (raise_for_status (sessionRequest max_retries transport).2).map Prod.snd

/-- `APIClient.delete`: `_request`, `r.raise_for_status()`, and then
`return None` — the function body ends without returning the parsed body
(its annotation is `-> None`). -/
def delete (max_retries : Nat) (transport : Nat → Outcome) :
    Except DispatchError Unit :=
  (raise_for_status (sessionRequest max_retries transport).2).map (fun _ => ())

/-- Concrete transport: the server answers every attempt with status 503. -/
def tr503 : Nat → Outcome := fun _ => .resp 503 0

/-- Concrete transport: the server answers every attempt with status 404. -/
def tr404 : Nat → Outcome := fun _ => .resp 404 0

/-- Concrete transport: the server answers every attempt with status 501. -/
def tr501 : Nat → Outcome := fun _ => .resp 501 0

/-- Concrete transport: the server answers every attempt with status 200
and the given body. -/
def tr200 (body : Nat) : Nat → Outcome := fun _ => .resp 200 body

/-- Observable events of one `_request` call: a pass through the rate
limiter (`_rate_limit()` on entry of `_request`) or the start of a
transport attempt (inside `session.request`). -/
inductive Event where
  | acquire
  | attempt
deriving DecidableEq, Repr

/-- The event trace of one `APIClient._request` call: the body of
`_request` runs `self._rate_limit()` exactly once and then calls
`self.session.request(...)`, inside which the mounted adapter performs all
transport attempts (first try and urllib3-internal retries) without ever
re-entering `_rate_limit`. -/
def requestEvents (max_retries : Nat) (transport : Nat → Outcome) : List Event :=
  Event.acquire :: List.replicate (sessionRequest max_retries transport).1 Event.attempt

/-- A run of N sequential verb calls through one client, recorded by the
two `time.time()` readings that the `_rate_limit` of each call takes: state is the
current `_last_call` and the wall clock position (never earlier than the
last reading taken).  `ValidRun lc clock ts` says the readings in `ts` are
consistent with `_rate_limit`: the entry reading `now1` of each call is not
earlier than the clock, its post-sleep reading `now2` is not earlier than
`now1` plus the requested sleep (`time.sleep` never wakes early), and the
next call starts no earlier than `now2`. -/
def ValidRun (requests_per_second : ℚ) : ℚ → ℚ → List (ℚ × ℚ) → Prop
  | _, _, [] => True
  | last_call, clock, t :: ts =>
    clock ≤ t.1 ∧
    t.1 + rate_limit_sleep requests_per_second last_call t.1 ≤ t.2 ∧
    ValidRun requests_per_second t.2 t.2 ts

/-- The admission instants of a run: `_rate_limit` returns at `now2`, and
the transport attempt of that call starts then. -/
def admissions (ts : List (ℚ × ℚ)) : List ℚ := ts.map Prod.snd

/-- Interleaved execution of `_rate_limit` by two concurrent callers
sharing one client.  The Python method is a read-modify-write on
`self._last_call` with no synchronisation: a caller first reads
`now = time.time()` and `self._last_call` (step `readStep`), then sleeps
as computed from those readings, reads `time.time()` again and stores it
into `self._last_call` (step `finishStep`). -/
inductive Caller where
  | A
  | B
deriving DecidableEq, Repr

/-- Phase of one caller inside `_rate_limit`. -/
inductive Phase where
  | notStarted
  | readDone (obs : ℚ) (readNow : ℚ)
  | admitted (t : ℚ)
deriving DecidableEq, Repr

/-- Shared state of the interleaved execution: the shared `_last_call`
field, the wall clock, and the phase of each caller. -/
structure ConcState where
  lastCall : ℚ
  clock : ℚ
  phaseA : Phase
  phaseB : Phase
deriving DecidableEq, Repr

def ConcState.phase (s : ConcState) : Caller → Phase
  | .A => s.phaseA
  | .B => s.phaseB

def ConcState.setPhase (s : ConcState) : Caller → Phase → ConcState
  | .A, p => { s with phaseA := p }
  | .B, p => { s with phaseB := p }

/-- One primitive step of a caller. -/
inductive Act where
  | readStep (c : Caller)
  | finishStep (c : Caller)
deriving DecidableEq, Repr

/-- Small-step semantics of the interleaving.  `readStep c` performs the
two reads at the top of `_rate_limit` (`now = time.time()` and the read of
`self._last_call`).  `finishStep c` performs the sleep computed from the
captured readings — advancing the clock by exactly the requested amount —
then takes the fresh `time.time()` reading and writes it to the shared
`self._last_call`; the caller is admitted at that instant. -/
def stepAct (requests_per_second : ℚ) (s : ConcState) : Act → ConcState
  | .readStep c =>
    match s.phase c with
    | .notStarted => s.setPhase c (.readDone s.lastCall s.clock)
    | _ => s
  | .finishStep c =>
    match s.phase c with
    | .readDone obs readNow =>
      let t := s.clock + rate_limit_sleep requests_per_second obs readNow
      { lastCall := t, clock := t,
        phaseA := (s.setPhase c (.admitted t)).phaseA,
        phaseB := (s.setPhase c (.admitted t)).phaseB }
    | _ => s

/-- Run a schedule of interleaved steps. -/
def runActs (requests_per_second : ℚ) (s : ConcState) (acts : List Act) : ConcState :=
  acts.foldl (stepAct requests_per_second) s

/-- Initial interleaving state: both callers outside `_rate_limit`, the
shared `_last_call` and the clock at the given instants. -/
def concInit (lastCall clock : ℚ) : ConcState :=
  { lastCall := lastCall, clock := clock,
    phaseA := .notStarted, phaseB := .notStarted }

/-- Every run of the retry loop makes at least one attempt. -/
lemma retryLoop_fst_pos (transport : Nat → Outcome) (idx retriesLeft : Nat) :
    1 ≤ (retryLoop transport idx retriesLeft).1 := by
  cases retriesLeft with
  | zero =>
    cases h : transport idx <;> simp [retryLoop, h]
  | succ n =>
    cases h : transport idx with
    | resp status body =>
      by_cases hr : is_retry (.resp status body) = true <;>
        simp [retryLoop, h, hr]
    | transportError => simp [retryLoop, h]

/-- The retry loop with budget `retriesLeft` makes at most
`retriesLeft + 1` attempts. -/
lemma retryLoop_fst_le (transport : Nat → Outcome) :
    ∀ retriesLeft idx, (retryLoop transport idx retriesLeft).1 ≤ retriesLeft + 1 := by
  intro retriesLeft
  induction retriesLeft with
  | zero =>
    intro idx
    cases h : transport idx <;> simp [retryLoop, h]
  | succ n ih =>
    intro idx
    cases h : transport idx with
    | resp status body =>
      by_cases hr : is_retry (.resp status body) = true
      · simp only [retryLoop, h, hr, if_true]
        have := ih (idx + 1)
        omega
      · simp [retryLoop, h, hr]
    | transportError =>
      simp only [retryLoop, h]
      have := ih (idx + 1)
      omega

/-- A first-attempt outcome that is not retryable ends the loop at once:
one attempt, and the response is returned unchanged. -/
lemma sessionRequest_first_nonretry (max_retries : Nat)
    (transport : Nat → Outcome) (s b : Nat)
    (h0 : transport 0 = .resp s b) (hnr : is_retry (.resp s b) = false) :
    sessionRequest max_retries transport = (1, .response s b) := by
  cases max_retries with
  | zero => simp [sessionRequest, retryLoop, h0]
  | succ n => simp [sessionRequest, retryLoop, h0, hnr]

/-- A status below 400 is not in the forcelist. -/
lemma not_forcelisted_of_lt_400 (s : Nat) (hs : s < 400) :
    status_forcelist.contains s = false := by
  simp only [status_forcelist, List.contains_eq_any_beq, List.any_cons,
    List.any_nil, Bool.or_eq_false_iff, beq_eq_false_iff_ne, ne_eq]
  refine ⟨?_, ?_, ?_, ?_, ?_, trivial⟩ <;> omega

/-- A status outside the forcelist is not contained in it, as a boolean. -/
lemma not_forcelisted_of_not_mem (s : Nat) (hs : s ∉ status_forcelist) :
    status_forcelist.contains s = false := by
  by_contra hc
  have h1 : status_forcelist.contains s = true := by
    revert hc
    cases status_forcelist.contains s <;> simp
  have h2 : s ∈ status_forcelist := by
    simpa [List.contains_eq_any_beq, List.any_eq_true] using h1
  exact hs h2

/-- A status in the forcelist is contained in it, as a boolean. -/
lemma forcelisted_of_mem (s : Nat) (hs : s ∈ status_forcelist) :
    status_forcelist.contains s = true := by
  simp only [List.contains_eq_any_beq, List.any_eq_true]
  exact ⟨s, hs, by simp⟩

/-- In the sleep branch (`elapsed < min_interval`), the requested sleep
is `min_interval - elapsed`. -/
lemma rate_limit_sleep_pos_case (requests_per_second last_call now1 : ℚ)
    (h : now1 - last_call < 1 / requests_per_second) :
    rate_limit_sleep requests_per_second last_call now1 =
      1 / requests_per_second - (now1 - last_call) := by
  unfold rate_limit_sleep
  simp only
  rw [if_pos h]

/-- In the other branch (`elapsed` at least `min_interval`), no sleep is
requested. -/
lemma rate_limit_sleep_zero_case (requests_per_second last_call now1 : ℚ)
    (h : ¬ now1 - last_call < 1 / requests_per_second) :
    rate_limit_sleep requests_per_second last_call now1 = 0 := by
  unfold rate_limit_sleep
  simp only
  rw [if_neg h]

/-- Key spacing property of one `_rate_limit` call: if the post-sleep
reading `now2` is at least `now1` plus the requested sleep (a real
`time.sleep` never wakes early), then `now2` is at least one minimum
interval after the previous `_last_call`. -/
lemma rate_limit_spacing (requests_per_second last_call now1 now2 : ℚ)
    (h : now1 + rate_limit_sleep requests_per_second last_call now1 ≤ now2) :
    last_call + 1 / requests_per_second ≤ now2 := by
  unfold rate_limit_sleep at h
  simp only at h
  split at h <;> linarith

/-- Claim C1: the claim states that every transport attempt, including
every retry attempt, passes through the rate limiter before it is sent.
This is false of the code: `_request` calls `self._rate_limit()` exactly
once and then hands the call to `session.request`, inside which the
mounted `HTTPAdapter` performs all retries without re-entering
`_rate_limit`.  Concretely, against a transport that always answers 503
and with `max_retries = 4`, the event trace of one `_request` holds one
`acquire` event but five `attempt` events, so the attempts cannot each
have passed through the rate limiter. -/
theorem C1_counterexample :
    (requestEvents 4 tr503).count Event.acquire = 1 ∧
    (requestEvents 4 tr503).count Event.attempt = 5 ∧
    ¬ (requestEvents 4 tr503).count Event.attempt ≤
        (requestEvents 4 tr503).count Event.acquire := by
  refine ⟨by decide, by decide, by decide⟩

/-- Claim C1 (amended): for every configuration and transport, one
`_request` call enters the rate limiter exactly once — only the first
transport attempt of a logical call is rate-limited, while the
urllib3-internal retries (at least 0, in total always at least one
attempt) are sent without passing through it. -/
theorem C1_amended (max_retries : Nat) (transport : Nat → Outcome) :
    (requestEvents max_retries transport).count Event.acquire = 1 ∧
    (requestEvents max_retries transport).count Event.attempt =
      (sessionRequest max_retries transport).1 ∧
    1 ≤ (sessionRequest max_retries transport).1 := by
  refine ⟨?_, ?_, retryLoop_fst_pos transport 0 max_retries⟩
  · simp [requestEvents, List.count_cons, List.count_replicate]
  · simp [requestEvents, List.count_cons, List.count_replicate]

/-- Claim C2: the total number of transport attempts of one logical call
never exceeds `max_retries + 1` (the urllib3 budget `Retry(total=max_retries)`
admits at most `max_retries` retries after the first attempt); against a
transport that always answers 503 and with `max_retries = 4`, exactly 5
attempts occur, the exhausted retry budget surfaces the last 503 response
(`raise_on_status=False`), and the call terminates in a failure — the
`HTTPError` that `raise_for_status` raises — not a success. -/
theorem C2_attempt_cap :
    (∀ (max_retries : Nat) (transport : Nat → Outcome),
      (sessionRequest max_retries transport).1 ≤ max_retries + 1) ∧
    sessionRequest 4 tr503 = (5, ReqResult.response 503 0) ∧
    get 4 tr503 = Except.error (DispatchError.httpError 503) := by
  refine ⟨fun max_retries transport => retryLoop_fst_le transport max_retries 0,
    by decide, rfl⟩

/-- Claim C3: failure classification.  A response whose status is in
{429, 500, 502, 503, 504} is classified retryable (and, when retry budget
remains, triggers another attempt), a transport-level failure is
retryable, a response with status in [200, 400) ends the call on the
first matching attempt as a success handed back to the caller as the
parsed body, and any other 4xx (status in [400, 500) outside the
forcelist — concretely 404) ends the call after exactly one attempt with
an immediate error and is never retried. -/
theorem C3_classification :
    (∀ s b, s ∈ status_forcelist → is_retry (Outcome.resp s b) = true) ∧
    is_retry Outcome.transportError = true ∧
    (∀ s b (max_retries : Nat) (transport : Nat → Outcome),
      s ∈ status_forcelist → transport 0 = Outcome.resp s b →
      2 ≤ (sessionRequest (max_retries + 1) transport).1) ∧
    (∀ s b (max_retries : Nat) (transport : Nat → Outcome),
      200 ≤ s → s < 400 → transport 0 = Outcome.resp s b →
      sessionRequest max_retries transport = (1, ReqResult.response s b) ∧
      get max_retries transport = Except.ok b) ∧
    (∀ s b (max_retries : Nat) (transport : Nat → Outcome),
      400 ≤ s → s < 500 → s ∉ status_forcelist →
      transport 0 = Outcome.resp s b →
      sessionRequest max_retries transport = (1, ReqResult.response s b) ∧
      get max_retries transport = Except.error (DispatchError.httpError s)) ∧
    (∀ (max_retries : Nat) (transport : Nat → Outcome),
      transport 0 = Outcome.resp 404 0 →
      sessionRequest max_retries transport = (1, ReqResult.response 404 0) ∧
      get max_retries transport = Except.error (DispatchError.httpError 404)) := by
  refine ⟨?_, rfl, ?_, ?_, ?_, ?_⟩
  · intro s b hs
    simpa [is_retry] using forcelisted_of_mem s hs
  · intro s b max_retries transport hs h0
    have hr : is_retry (Outcome.resp s b) = true := by
      simpa [is_retry] using forcelisted_of_mem s hs
    have hpos := retryLoop_fst_pos transport (0 + 1) max_retries
    simp only [sessionRequest, retryLoop, h0, hr, if_true]
    omega
  · intro s b max_retries transport h200 h400 h0
    have hnr : is_retry (Outcome.resp s b) = false := by
      simpa [is_retry] using not_forcelisted_of_lt_400 s h400
    have hsess := sessionRequest_first_nonretry max_retries transport s b h0 hnr
    refine ⟨hsess, ?_⟩
    have : ¬ (400 ≤ s ∧ s < 600) := by omega
    simp [get, hsess, raise_for_status, this, Except.map]
  · intro s b max_retries transport h400 h500 hnm h0
    have hnr : is_retry (Outcome.resp s b) = false := by
      simpa [is_retry] using not_forcelisted_of_not_mem s hnm
    have hsess := sessionRequest_first_nonretry max_retries transport s b h0 hnr
    refine ⟨hsess, ?_⟩
    have : 400 ≤ s ∧ s < 600 := by omega
    simp [get, hsess, raise_for_status, this, Except.map]
  · intro max_retries transport h0
    have hnr : is_retry (Outcome.resp 404 0) = false := by decide
    have hsess := sessionRequest_first_nonretry max_retries transport 404 0 h0 hnr
    refine ⟨hsess, ?_⟩
    simp [get, hsess, raise_for_status, Except.map]

/-- Witness for C3 at concrete inputs: a constant-503 transport with one
retry remaining makes a second attempt, a constant-200 transport with body
42 succeeds in one attempt returning the parsed body, and a constant-404
transport makes exactly one attempt and fails immediately. -/
theorem C3_classification_witness :
    2 ≤ (sessionRequest 5 tr503).1 ∧
    (sessionRequest 4 (tr200 42) = (1, ReqResult.response 200 42) ∧
      get 4 (tr200 42) = Except.ok 42) ∧
    (sessionRequest 4 tr404 = (1, ReqResult.response 404 0) ∧
      get 4 tr404 = Except.error (DispatchError.httpError 404)) :=
  ⟨C3_classification.2.2.1 503 0 4 tr503 (by decide) rfl,
    C3_classification.2.2.2.1 200 42 4 (tr200 42) (by decide) (by decide) rfl,
    C3_classification.2.2.2.2.2 4 tr404 rfl⟩

/-- Claim C4: the claim states the delay before retry `attemptIndex + 1`
is `backoff_factor * 2 ^ (attemptIndex - 1)` for every `attemptIndex ≥ 1`,
giving delays 1, 2, 4, 8 for `backoff_factor = 1.0` over 5 attempts.
This is false of the code: the urllib3 `get_backoff_time` returns 0 when
at most one error has been recorded, so the delay before the first retry
is 0, not `backoff_factor`; with `backoff_factor = 1.0` and 5 attempts the
inter-attempt delays are 0, 2, 4, 8. -/
theorem C4_counterexample :
    get_backoff_time 1 1 = 0 ∧
    get_backoff_time 1 1 ≠ 1 * 2 ^ (1 - 1) ∧
    interAttemptDelays 1 5 = [0, 2, 4, 8] ∧
    interAttemptDelays 1 5 ≠ [1, 2, 4, 8] := by
  refine ⟨?_, ?_, ?_, ?_⟩ <;>
    norm_num [interAttemptDelays, get_backoff_time, DEFAULT_BACKOFF_MAX,
      List.range_succ]

/-- Claim C4 (amended): the delay before retry number k (k ≥ 1, before
attempt k + 1) is 0 for the first retry and
`min(120, backoff_factor * 2 ^ (k - 1))` for every later retry, 120 being
the urllib3 backoff cap; deterministically, with no jitter.  With
`backoff_factor = 1.0` and 5 total attempts, the inter-attempt delays are
0, 2, 4, 8 seconds. -/
theorem C4_amended (backoff_factor : ℚ) (k : Nat) :
    get_backoff_time backoff_factor 1 = 0 ∧
    (2 ≤ k → get_backoff_time backoff_factor k =
      min 120 (backoff_factor * 2 ^ (k - 1))) ∧
    interAttemptDelays 1 5 = [0, 2, 4, 8] := by
  refine ⟨by norm_num [get_backoff_time], ?_, ?_⟩
  · intro hk
    have : ¬ k ≤ 1 := by omega
    simp [get_backoff_time, DEFAULT_BACKOFF_MAX, this]
  · norm_num [interAttemptDelays, get_backoff_time, DEFAULT_BACKOFF_MAX,
      List.range_succ]

/-- Witness for C4 (amended) at `backoff_factor = 1`, `k = 3`: the delay
before the third retry is `min 120 4 = 4`. -/
theorem C4_amended_witness :
    get_backoff_time 1 1 = 0 ∧ get_backoff_time 1 3 = min 120 (1 * 2 ^ (3 - 1)) :=
  ⟨(C4_amended 1 3).1, (C4_amended 1 3).2.1 (by norm_num)⟩

/-- Claim C5: the acquire operation of the rate limiter follows exactly
the steps of the spec: compute `elapsed = now - LastCallTimestamp`;
when `elapsed < minInterval` with `minInterval = 1 / requests_per_second`,
suspend for `minInterval - elapsed`, otherwise do not suspend; then store
into `LastCallTimestamp` the fresh `time.time()` reading `now2` taken
after any suspension — not the pre-suspension reading `now1` — and
return, with no error outcome (the embedded `_rate_limit` is a total
function and equals the algorithm `acquireSpec` transcribed from the
spec). -/
theorem C5_rate_limit_algorithm (requests_per_second last_call now1 now2 : ℚ) :
    _rate_limit requests_per_second last_call now1 now2 =
      acquireSpec requests_per_second last_call now1 now2 ∧
    (_rate_limit requests_per_second last_call now1 now2).2 = now2 ∧
    (now1 - last_call < 1 / requests_per_second →
      (_rate_limit requests_per_second last_call now1 now2).1 =
        1 / requests_per_second - (now1 - last_call)) ∧
    (¬ now1 - last_call < 1 / requests_per_second →
      (_rate_limit requests_per_second last_call now1 now2).1 = 0) := by
  refine ⟨?_, rfl, ?_, ?_⟩
  · unfold _rate_limit acquireSpec rate_limit_sleep
    simp only
    split <;> rfl
  · intro h
    show rate_limit_sleep requests_per_second last_call now1 = _
    exact rate_limit_sleep_pos_case requests_per_second last_call now1 h
  · intro h
    show rate_limit_sleep requests_per_second last_call now1 = 0
    exact rate_limit_sleep_zero_case requests_per_second last_call now1 h

/-- Witness for C5 at `requests_per_second = 2`, `last_call = 0`,
`now1 = 1/4`, `now2 = 1/2`: the elapsed 1/4 is below the minimum interval
1/2, so the requested sleep is 1/4 and the stored timestamp is the
post-sleep reading 1/2. -/
theorem C5_rate_limit_algorithm_witness :
    _rate_limit 2 0 (1/4) (1/2) = acquireSpec 2 0 (1/4) (1/2) ∧
    (_rate_limit 2 0 (1/4) (1/2)).2 = 1/2 ∧
    (_rate_limit 2 0 (1/4) (1/2)).1 = 1 / 2 - (1/4 - 0) := by
  have h := C5_rate_limit_algorithm 2 0 (1/4) (1/2)
  exact ⟨h.1, h.2.1, h.2.2.1 (by norm_num)⟩

/-- In a valid sequential run, consecutive admission instants are at
least one minimum interval apart. -/
lemma validRun_consecutive (requests_per_second : ℚ) :
    ∀ (ts : List (ℚ × ℚ)) (last_call clock : ℚ),
      ValidRun requests_per_second last_call clock ts →
      ∀ i, i + 1 < ts.length →
        (admissions ts).getD i 0 + 1 / requests_per_second ≤
          (admissions ts).getD (i + 1) 0 := by
  intro ts
  induction ts with
  | nil =>
    intro last_call clock _ i hi
    simp at hi
  | cons t ts2 ih =>
    intro last_call clock hv i hi
    simp only [ValidRun] at hv
    obtain ⟨h1, h2, h3⟩ := hv
    cases i with
    | zero =>
      cases ts2 with
      | nil => simp at hi
      | cons t2 ts3 =>
        simp only [ValidRun] at h3
        obtain ⟨h1b, h2b, h3b⟩ := h3
        have := rate_limit_spacing requests_per_second t.2 t2.1 t2.2 h2b
        simpa [admissions] using this
    | succ n =>
      have := ih t.2 t.2 h3 n (by simpa using hi)
      simpa [admissions] using this

/-- In a valid sequential run, the j-th admission lags the first by at
least j minimum intervals. -/
lemma validRun_from_first (requests_per_second : ℚ) (ts : List (ℚ × ℚ))
    (last_call clock : ℚ)
    (hv : ValidRun requests_per_second last_call clock ts) :
    ∀ j, j < ts.length →
      (admissions ts).getD 0 0 + (j : ℚ) * (1 / requests_per_second) ≤
        (admissions ts).getD j 0 := by
  intro j
  induction j with
  | zero =>
    intro _
    simp
  | succ n ihn =>
    intro hj
    have hstep := validRun_consecutive requests_per_second ts last_call clock hv n hj
    have hbase := ihn (by omega)
    push_cast
    push_cast at hbase
    linarith

/-- Claim C6: for every positive rate and every valid sequential run of N
calls on one client (readings consistent with `_rate_limit` and a
monotone clock whose sleeps never wake early), no two successive
admissions — the instants at which `_rate_limit` returns and the
transport attempt starts — are closer than `1 / requests_per_second`,
and the j-th admission lags the first by at least `j / requests_per_second`;
with j = N - 1 the total elapsed wall time of the N calls is at least
`(N - 1) / requests_per_second`.  Unused budget never accumulates: the
bound holds for every call pair regardless of how much earlier calls
overshot the minimum spacing. -/
theorem C6_sequential_spacing (requests_per_second last_call clock : ℚ)
    (ts : List (ℚ × ℚ)) (h0 : 0 < requests_per_second)
    (hv : ValidRun requests_per_second last_call clock ts) :
    (∀ i, i + 1 < ts.length →
      (admissions ts).getD i 0 + 1 / requests_per_second ≤
        (admissions ts).getD (i + 1) 0) ∧
    (∀ j, j < ts.length →
      (admissions ts).getD 0 0 + (j : ℚ) * (1 / requests_per_second) ≤
        (admissions ts).getD j 0) :=
  ⟨validRun_consecutive requests_per_second ts last_call clock hv,
    validRun_from_first requests_per_second ts last_call clock hv⟩

/-- Witness for C6: a concrete valid 3-call run at rate 2 (minimum
interval 1/2), starting from `_last_call = 0` at clock instant 10; the
admissions are 10, 21/2, 11, and the third lags the first by the full
2 * (1/2) = 1. -/
theorem C6_sequential_spacing_witness :
    (admissions [((10 : ℚ), (10 : ℚ)), (10, 21/2), (21/2, 11)]).getD 0 0 +
        ((2 : ℕ) : ℚ) * (1 / 2) ≤
      (admissions [((10 : ℚ), (10 : ℚ)), (10, 21/2), (21/2, 11)]).getD 2 0 :=
  (C6_sequential_spacing 2 0 10 [(10, 10), (10, 21/2), (21/2, 11)]
    (by norm_num)
    (by norm_num [ValidRun, rate_limit_sleep])).2 2 (by norm_num)

/-- Claim C7: the claim states every 5xx status, 501 included, is
retryable.  This is false of the code: the forcelist is exactly
{429, 500, 502, 503, 504}, so a 501 response is not retried — with a
transport that always answers 501 and `max_retries = 4`, exactly one
attempt occurs and the 501 is surfaced to the caller as a terminal
`HTTPError` on the first attempt. -/
theorem C7_counterexample :
    is_retry (Outcome.resp 501 0) = false ∧
    sessionRequest 4 tr501 = (1, ReqResult.response 501 0) ∧
    get 4 tr501 = Except.error (DispatchError.httpError 501) :=
  ⟨by decide, by decide, rfl⟩

/-- Claim C7 (amended): among response statuses exactly
{429, 500, 502, 503, 504} are retryable; any other status — including
5xx statuses outside that set, such as 501 — is not retried: the first
attempt returning it ends the call with that response surfaced
immediately. -/
theorem C7_amended :
    (∀ s b, is_retry (Outcome.resp s b) = true ↔ s ∈ status_forcelist) ∧
    (∀ s b (max_retries : Nat) (transport : Nat → Outcome),
      s ∉ status_forcelist → transport 0 = Outcome.resp s b →
      sessionRequest max_retries transport = (1, ReqResult.response s b)) := by
  constructor
  · intro s b
    constructor
    · intro h
      simp only [is_retry] at h
      simpa [List.contains_eq_any_beq, List.any_eq_true] using h
    · intro h
      simpa [is_retry] using forcelisted_of_mem s h
  · intro s b max_retries transport hs h0
    have hnr : is_retry (Outcome.resp s b) = false := by
      simpa [is_retry] using not_forcelisted_of_not_mem s hs
    exact sessionRequest_first_nonretry max_retries transport s b h0 hnr

/-- Witness for C7 (amended) at status 501: 501 is not retryable and a
constant-501 transport with `max_retries = 4` ends after one attempt. -/
theorem C7_amended_witness :
    (is_retry (Outcome.resp 501 0) = true ↔ 501 ∈ status_forcelist) ∧
    sessionRequest 4 tr501 = (1, ReqResult.response 501 0) :=
  ⟨C7_amended.1 501 0, C7_amended.2 501 0 4 tr501 (by decide) rfl⟩

/-- Claim C8: the claim states all four verbs, `delete` included, return
the parsed response body on success.  This is false of the code:
`APIClient.delete` is annotated `-> None` and ends after
`r.raise_for_status()` without returning `r.json()`.  Concretely, on a
200 response, `get/post/put` return the parsed body 42 while `delete`
returns the unit value, identical for two transports whose response
bodies differ — it yields nothing derived from the body. -/
theorem C8_counterexample :
    get 4 (tr200 42) = Except.ok 42 ∧
    post 4 (tr200 42) = Except.ok 42 ∧
    put 4 (tr200 42) = Except.ok 42 ∧
    delete 4 (tr200 42) = Except.ok () ∧
    delete 4 (tr200 42) = delete 4 (tr200 7) :=
  ⟨rfl, rfl, rfl, rfl, rfl⟩

/-- Claim C8 (amended): `get`, `post` and `put` return the parsed
response body on success and a dispatch error on failure; `delete` runs
the same dispatch pipeline and propagates the same errors but returns
nothing (None) on success — its result is the image of the `get` result
under discarding the body. -/
theorem C8_amended :
    (∀ (max_retries : Nat) (transport : Nat → Outcome),
      post max_retries transport = get max_retries transport ∧
      put max_retries transport = get max_retries transport ∧
      delete max_retries transport =
        (get max_retries transport).map (fun _ => ())) ∧
    (∀ (s b max_retries : Nat) (transport : Nat → Outcome),
      (sessionRequest max_retries transport).2 = ReqResult.response s b →
      ¬ (400 ≤ s ∧ s < 600) →
      get max_retries transport = Except.ok b ∧
      delete max_retries transport = Except.ok ()) := by
  constructor
  · intro max_retries transport
    refine ⟨rfl, rfl, ?_⟩
    simp only [delete, get]
    cases raise_for_status (sessionRequest max_retries transport).2 <;>
      simp [Except.map]
  · intro s b max_retries transport hresp hst
    rw [get, delete, hresp]
    simp [raise_for_status, hst, Except.map]

/-- Witness for C8 (amended) on a constant-200 transport with body 42:
the dispatch succeeds, `get` returns the parsed body and `delete`
returns unit. -/
theorem C8_amended_witness :
    get 4 (tr200 42) = Except.ok 42 ∧ delete 4 (tr200 42) = Except.ok () :=
  C8_amended.2 200 42 4 (tr200 42) (by decide) (by omega)

/-- Claim C9: the claim states that under concurrent callers the acquire
operation serializes the read-modify-write of `_last_call`, so no
interleaving admits two callers closer than the minimum interval.  This
is false of the code: `_rate_limit` uses a plain instance field with no
lock, and in the interleaving where both callers read `_last_call`
before either writes (schedule read A, read B, finish A, finish B, at
rate 1 from `_last_call = 0` and clock 10) both callers are admitted at
the same instant 10, closer than the required interval 1. -/
theorem C9_counterexample :
    runActs 1 (concInit 0 10)
        [Act.readStep Caller.A, Act.readStep Caller.B,
          Act.finishStep Caller.A, Act.finishStep Caller.B] =
      { lastCall := 10, clock := 10,
        phaseA := Phase.admitted 10, phaseB := Phase.admitted 10 } ∧
    ¬ (10 : ℚ) + 1 / 1 ≤ 10 := by
  constructor
  · simp [runActs, stepAct, concInit, ConcState.phase, ConcState.setPhase,
      rate_limit_sleep]
  · norm_num

/-- Claim C9 (amended): `_rate_limit` performs an unsynchronized
read-modify-write of the shared `_last_call`; the spacing guarantee holds
only when the two acquires execute serially.  In the serialized schedule
(read A, finish A, read B, finish B) the second caller observes the
first admission instant and is admitted exactly one minimum interval
after it. -/
theorem C9_amended (requests_per_second last_call clock : ℚ)
    (h0 : 0 < requests_per_second) :
    (runActs requests_per_second (concInit last_call clock)
        [Act.readStep Caller.A, Act.finishStep Caller.A,
          Act.readStep Caller.B, Act.finishStep Caller.B]).phaseA =
      Phase.admitted
        (clock + rate_limit_sleep requests_per_second last_call clock) ∧
    (runActs requests_per_second (concInit last_call clock)
        [Act.readStep Caller.A, Act.finishStep Caller.A,
          Act.readStep Caller.B, Act.finishStep Caller.B]).phaseB =
      Phase.admitted
        (clock + rate_limit_sleep requests_per_second last_call clock +
          1 / requests_per_second) ∧
    clock + rate_limit_sleep requests_per_second last_call clock +
        1 / requests_per_second ≤
      clock + rate_limit_sleep requests_per_second last_call clock +
        1 / requests_per_second := by
  have hsl : rate_limit_sleep requests_per_second
      (clock + rate_limit_sleep requests_per_second last_call clock)
      (clock + rate_limit_sleep requests_per_second last_call clock) =
      1 / requests_per_second := by
    rw [rate_limit_sleep_pos_case]
    · ring
    · simpa using one_div_pos.mpr h0
  refine ⟨?_, ?_, le_refl _⟩
  · simp [runActs, stepAct, concInit, ConcState.phase, ConcState.setPhase]
  · simp [runActs, stepAct, concInit, ConcState.phase, ConcState.setPhase, hsl]

/-- Witness for C9 (amended) at rate 1, `_last_call = 0`, clock 10: the
serialized schedule admits A at 10 and B at 11, one full interval later. -/
theorem C9_amended_witness :
    (runActs 1 (concInit 0 10)
        [Act.readStep Caller.A, Act.finishStep Caller.A,
          Act.readStep Caller.B, Act.finishStep Caller.B]).phaseA =
      Phase.admitted (10 + rate_limit_sleep 1 0 10) ∧
    (runActs 1 (concInit 0 10)
        [Act.readStep Caller.A, Act.finishStep Caller.A,
          Act.readStep Caller.B, Act.finishStep Caller.B]).phaseB =
      Phase.admitted (10 + rate_limit_sleep 1 0 10 + 1 / 1) ∧
    (10 : ℚ) + rate_limit_sleep 1 0 10 + 1 / 1 ≤
      10 + rate_limit_sleep 1 0 10 + 1 / 1 :=
  C9_amended 1 0 10 (by norm_num)

/-- Claim C10: on a freshly constructed client the first request is never
delayed by the rate limiter: `__init__` sets `self._last_call = 0` (the
epoch), and the source types `requests_per_second` as a positive int, so
the minimum interval is at most 1 second; since `time.time()` (seconds
since the epoch) reads at least 1 at any point after the first second of
1970, the first acquire finds `elapsed = now - 0 ≥ min_interval` and
requests no sleep. -/
theorem C10_first_call_not_delayed :
    init_last_call = 0 ∧
    ∀ (requests_per_second : ℕ) (now1 : ℚ),
      0 < requests_per_second → 1 ≤ now1 →
      rate_limit_sleep (requests_per_second : ℚ) init_last_call now1 = 0 := by
  refine ⟨rfl, ?_⟩
  intro requests_per_second now1 hr hn
  apply rate_limit_sleep_zero_case
  push_neg
  rw [init_last_call]
  have h1 : (1 : ℚ) ≤ (requests_per_second : ℚ) := by exact_mod_cast hr
  have h2 : 1 / (requests_per_second : ℚ) ≤ 1 := by
    rw [div_le_one (by positivity)]
    exact h1
  linarith

/-- Witness for C10 at the default rate 10 and a clock reading of 2
seconds past the epoch: the first acquire requests no sleep. -/
theorem C10_first_call_not_delayed_witness :
    init_last_call = 0 ∧
    rate_limit_sleep ((10 : ℕ) : ℚ) init_last_call 2 = 0 :=
  ⟨C10_first_call_not_delayed.1,
    C10_first_call_not_delayed.2 10 2 (by norm_num) (by norm_num)⟩

end APIFramework
